import Mathlib

/-
  Verification of the YieldFi vault-agent transaction pipeline.

  Shallow embedding of the Python sources:
    flow-vault-agent/main.py        (LangChain tools over web3, Flow testnet)
    near-vault-agent/main.py        (same tools on NEAR/Aurora, no try/except)
    near-vault-agent/vault_actions.py
    near-vault-agent/ml-risk/create_aurora_model.py
    near-vault-agent/ml-risk/risk_api.py

  Chain state and RPC outcomes are modelled explicitly: a World carries the
  readable chain state plus a script of outcomes for successive transaction
  submissions, and every tool returns its result string together with the
  updated World and the list of observable events (submission, receipt wait,
  sleep) it produced, in order.
-/

/- The Batteries rational arithmetic definitions are irreducible by
default; re-enable unfolding locally so that concrete runs of the
embedded functions can be evaluated by kernel reduction. -/
attribute [local semireducible] Rat.add Rat.sub Rat.mul Rat.inv
  Rat.ofScientific

/-- An encoded argument of a contract call, as produced by the web3
contract binding from the ABI. -/
inductive Arg where
  | addr (a : String)
  | uint (n : Int)
  | bytes (b : List Nat)
deriving Repr, DecidableEq

/-- The unsigned transaction request built by build_transaction: the dict
with from, nonce, gas, gasPrice, chainId plus the encoded contract call.
The target contract address field (to in the Python dict) is named toAddr. -/
structure TxRequest where
  toAddr : String
  method : String
  args : List Arg
  sender : String
  nonce : Nat
  gas : Nat
  gasPrice : Nat
  chainId : Nat
deriving Repr, DecidableEq

/-- Observable events of a tool run: a raw-transaction submission, a blocking
wait_for_transaction_receipt with its timeout in seconds, and a time.sleep. -/
inductive Event where
  | submit (tx : TxRequest)
  | waitReceipt (timeoutSec : Nat)
  | sleep (seconds : Nat)
deriving Repr, DecidableEq

/-- The outcome the network gives one submission attempt inside
send_transaction: mined receipt, receipt-wait timeout, a revert raised as
ContractLogicError, or any other exception with its message. -/
inductive SendOutcome where
  | confirmed (blockNumber : Nat)
  | timedOut
  | reverted (msg : String)
  | rpcFailure (msg : String)
deriving Repr, DecidableEq

/-- The dict returned by send_transaction. -/
structure TxResult where
  success : Bool
  error : Option String
  receiptBlock : Option Nat
deriving Repr, DecidableEq

def TxResult.errorStr (r : TxResult) : String := r.error.getD ""

/-- Readable chain state: the view calls the tools make, plus the nonce and
gas price reads used by build_transaction. View calls are fallible (the RPC
endpoint may be unreachable or the call may revert); a failure is the
message of the raised exception. -/
structure Chain where
  usdcBalanceOf : String → Except String Nat
  vrfGetBalance : Except String Nat
  lastWinner : Except String String
  txCount : Nat
  gasPrice : Nat

/-- A world: the chain state together with the script of outcomes the
network will give to successive send_transaction submissions. -/
structure World where
  chain : Chain
  pending : List SendOutcome

/-- Contract and account addresses, loaded from environment variables at
process start (os.getenv in config). Their concrete values are deployment
configuration; the placeholders stand for the configured strings. -/
def VAULT_ADDRESS : String := "vault"

def VRF_STRATEGY_ADDRESS : String := "vrf_strategy"

def USDC_TOKEN_ADDRESS : String := "usdc_token"

def AGENT_ADDRESS : String := "agent"

def CHAIN_ID : Nat := 545

/-- Python int() applied to a numeric amount: truncation toward zero.
Used for amount_wei = int(amount_usdc * (10**6)). -/
def pyInt (q : ℚ) : Int := if 0 ≤ q then ⌊q⌋ else ⌈q⌉

/-- web3 contract_function.build_transaction: reads the current nonce
(eth_getTransactionCount) and gas price from the chain and assembles the
unsigned transaction dict. It performs only reads, so the chain is returned
unchanged. -/
def build_transaction (c : Chain) (dest : String) (method : String)
    (args : List Arg) (gas : Nat) : TxRequest × Chain :=
  ({ toAddr := dest, method := method, args := args, sender := AGENT_ADDRESS,
     nonce := c.txCount, gas := gas, gasPrice := c.gasPrice,
     chainId := CHAIN_ID }, c)

/-- A concrete byte-level serialization of the unsigned payload, field by
field in the order of the transaction dict. -/
def encodeString (s : String) : List Nat := s.toList.map Char.toNat

def encodeArg : Arg → List Nat
  | Arg.addr a => 0 :: encodeString a
  | Arg.uint n => 1 :: (if n < 0 then 0 else 1) :: [n.natAbs]
  | Arg.bytes b => 2 :: b

def encodeTx (t : TxRequest) : List Nat :=
  encodeString t.toAddr ++ encodeString t.method ++ (t.args.map encodeArg).flatten
    ++ encodeString t.sender ++ [t.nonce, t.gas, t.gasPrice, t.chainId]

namespace Flow

/-- flow-vault-agent/main.py send_transaction: signs, broadcasts, then
blocks on wait_for_transaction_receipt with timeout=120. ContractLogicError
is caught and reported with a Contract logic error prefix; every other
exception (including the receipt timeout) is caught and reported with
str(e). It always returns the result dict; no exception escapes and no
retry is made. -/
def send_transaction (w : World) (tx : TxRequest) : TxResult × World × List Event :=
  match w.pending with
  | [] =>
      ({ success := false, error := some "no pending outcome", receiptBlock := none },
        w, [Event.submit tx])
  | o :: rest =>
      match o with
      | SendOutcome.confirmed b =>
          ({ success := true, error := none, receiptBlock := some b },
            { chain := { w.chain with txCount := w.chain.txCount + 1 }, pending := rest },
            [Event.submit tx, Event.waitReceipt 120])
      | SendOutcome.timedOut =>
          ({ success := false,
             error := some "Transaction is not in the chain after 120 seconds",
             receiptBlock := none },
            { w with pending := rest },
            [Event.submit tx, Event.waitReceipt 120])
      | SendOutcome.reverted m =>
          ({ success := false, error := some ("Contract logic error: " ++ m),
             receiptBlock := none },
            { w with pending := rest },
            [Event.submit tx])
      | SendOutcome.rpcFailure m =>
          ({ success := false, error := some m, receiptBlock := none },
            { w with pending := rest },
            [Event.submit tx])

/-- flow-vault-agent/main.py get_protocol_status: reads the three views in
order inside a try block; any failure is returned as a descriptive string. -/
def get_protocol_status (w : World) : String × World × List Event :=
  match w.chain.usdcBalanceOf VAULT_ADDRESS with
  | Except.error e => ("Error getting protocol status: " ++ e, w, [])
  | Except.ok liquid =>
    match w.chain.vrfGetBalance with
    | Except.error e => ("Error getting protocol status: " ++ e, w, [])
    | Except.ok prize =>
      match w.chain.lastWinner with
      | Except.error e => ("Error getting protocol status: " ++ e, w, [])
      | Except.ok winner =>
          ("Protocol Status: vault_liquid_usdc " ++ toString ((liquid : ℚ) / 10 ^ 6)
            ++ " USDC, current_prize_pool " ++ toString ((prize : ℚ) / 10 ^ 6)
            ++ " USDC, last_lottery_winner " ++ winner, w, [])

/-- flow-vault-agent/main.py deposit_new_funds_into_strategy: reads the
vault USDC balance; on zero returns the no-op message without building or
submitting anything; otherwise builds depositToStrategy and submits it. -/
def deposit_new_funds_into_strategy (w : World) : String × World × List Event :=
  match w.chain.usdcBalanceOf VAULT_ADDRESS with
  | Except.error e => ("Error depositing funds: " ++ e, w, [])
  | Except.ok bal =>
    if bal = 0 then
      ("No new funds in the vault to deposit. All capital is already deployed.", w, [])
    else
      let (tx, c) := build_transaction w.chain VAULT_ADDRESS "depositToStrategy"
        [Arg.addr VRF_STRATEGY_ADDRESS, Arg.uint (bal : Int), Arg.bytes []] 2000000
      let (r, w1, es) := send_transaction { w with chain := c } tx
      (if r.success then
         "Successfully deposited " ++ toString ((bal : ℚ) / 10 ^ 6)
           ++ " USDC into the VRF strategy."
       else "Failed to deposit funds: " ++ r.errorStr, w1, es)

/-- flow-vault-agent/main.py simulate_yield_harvest_and_deposit: computes
amount_wei = int(amount_usdc * 10^6), then mint, approve, depositYield in
sequence, each via send_transaction, aborting on the first failure, with a
time.sleep(2) after each of the first two successful steps. -/
def simulate_yield_harvest_and_deposit (amount_usdc : ℚ) (w : World) :
    String × World × List Event :=
  let amount_wei := pyInt (amount_usdc * 10 ^ 6)
  let (mint_tx, c0) := build_transaction w.chain USDC_TOKEN_ADDRESS "mint"
    [Arg.addr AGENT_ADDRESS, Arg.uint amount_wei] 500000
  let (r1, w1, e1) := send_transaction { w with chain := c0 } mint_tx
  if !r1.success then
    ("Failed to mint mock yield: " ++ r1.errorStr, w1, e1)
  else
    let (approve_tx, c1) := build_transaction w1.chain USDC_TOKEN_ADDRESS "approve"
      [Arg.addr VRF_STRATEGY_ADDRESS, Arg.uint amount_wei] 500000
    let (r2, w2, e2) := send_transaction { w1 with chain := c1 } approve_tx
    if !r2.success then
      ("Failed to approve yield deposit: " ++ r2.errorStr, w2,
        e1 ++ [Event.sleep 2] ++ e2)
    else
      let (deposit_tx, c2) := build_transaction w2.chain VRF_STRATEGY_ADDRESS
        "depositYield" [Arg.uint amount_wei] 1000000
      let (r3, w3, e3) := send_transaction { w2 with chain := c2 } deposit_tx
      (if r3.success then
         "Successfully simulated and deposited " ++ toString amount_usdc
           ++ " USDC as the prize pool."
       else "Failed to deposit yield: " ++ r3.errorStr, w3,
        e1 ++ [Event.sleep 2] ++ e2 ++ [Event.sleep 2] ++ e3)

/-- flow-vault-agent/main.py trigger_lottery_draw: reads the prize pool; on
zero returns the rejection message without submitting; otherwise submits
harvestStrategy and, on success, sleeps 2 seconds and reads the new winner. -/
def trigger_lottery_draw (w : World) : String × World × List Event :=
  match w.chain.vrfGetBalance with
  | Except.error e => ("Error triggering lottery draw: " ++ e, w, [])
  | Except.ok prize =>
    if prize = 0 then
      ("Cannot trigger draw: The prize pool is zero. Harvest some yield first.", w, [])
    else
      let (tx, c) := build_transaction w.chain VAULT_ADDRESS "harvestStrategy"
        [Arg.addr VRF_STRATEGY_ADDRESS, Arg.bytes []] 2000000
      let (r, w1, es) := send_transaction { w with chain := c } tx
      if r.success then
        match w1.chain.lastWinner with
        | Except.ok winner =>
            ("Lottery draw successful! The new winner is " ++ winner ++ ".",
              w1, es ++ [Event.sleep 2])
        | Except.error e =>
            ("Error triggering lottery draw: " ++ e, w1, es ++ [Event.sleep 2])
      else
        ("Failed to trigger lottery draw: " ++ r.errorStr, w1, es)

end Flow

namespace Near

/-- near-vault-agent/main.py get_protocol_status: the same three view reads
as the Flow variant, but with no try/except around them: a failing view
call raises out of the tool function, modelled as an Except.error result. -/
def get_protocol_status (w : World) : Except String (String × World × List Event) :=
  match w.chain.usdcBalanceOf VAULT_ADDRESS with
  | Except.error e => Except.error e
  | Except.ok liquid =>
    match w.chain.vrfGetBalance with
    | Except.error e => Except.error e
    | Except.ok prize =>
      match w.chain.lastWinner with
      | Except.error e => Except.error e
      | Except.ok winner =>
          Except.ok ("Protocol Status on NEAR: Vault has "
            ++ toString ((liquid : ℚ) / 10 ^ 6) ++ " liquid USDC. Prize pool is "
            ++ toString ((prize : ℚ) / 10 ^ 6) ++ " USDC. Last winner: " ++ winner
            ++ ".", w, [])

end Near

/-- The submissions contained in an event trace, in order. -/
def submits : List Event → List TxRequest
  | [] => []
  | Event.submit tx :: rest => tx :: submits rest
  | _ :: rest => submits rest

/-- True when somewhere in the trace a receipt wait occurs with a further
submission after it, i.e. the implementation waits on a transaction receipt
before starting a later step. -/
def receiptWaitBeforeLaterSubmit : List Event → Bool
  | [] => false
  | Event.waitReceipt _ :: rest =>
      rest.any (fun e => match e with | Event.submit _ => true | _ => false)
        || receiptWaitBeforeLaterSubmit rest
  | _ :: rest => receiptWaitBeforeLaterSubmit rest

/-- The amount argument a pipeline transaction carries: mint, approve and
depositYield all pass the uint amount as their last encoded argument. -/
def txAmount (t : TxRequest) : Option Int :=
  match t.args.getLast? with
  | some (Arg.uint n) => some n
  | _ => none

/-
  Embedding of the ML risk scoring stub:
  near-vault-agent/ml-risk/create_aurora_model.py and risk_api.py.

  The numpy global random generator is modelled as a deterministic state
  machine on a Nat state with a concrete step function; np.random.seed
  replaces the state by the given seed. This captures the property the
  source relies on: every draw is a deterministic function of the state
  set by the seed. The per-process salting of the Python hash builtin for
  strings (PYTHONHASHSEED) is modelled by threading the process salt into
  the hash function. The saved scikit-learn artifacts (StandardScaler
  transform and IsolationForest decision_function) are arbitrary
  deterministic functions of their input, carried in the model record.
-/

/-- One step of the modelled pseudo-random generator. -/
def randStep (s : Nat) : Nat := (1664525 * s + 1013904223) % 4294967296

/-- np.random.uniform(lo, hi): advances the generator and scales the fresh
state into the interval (the fresh state over 2^32 is the unit draw). -/
def npUniform (lo hi : ℚ) (s : Nat) : ℚ × Nat :=
  let t := randStep s
  (lo + (hi - lo) * mkRat t 4294967296, t)

/-- np.random.randint(lo, hi): advances the generator and reduces the fresh
state into the half-open integer range. -/
def npRandint (lo hi : Nat) (s : Nat) : ℚ × Nat :=
  let t := randStep s
  (mkRat (lo + t % (hi - lo)) 1, t)

/-- The Python hash builtin on strings, salted per process: a deterministic
function of the process salt and the string. -/
def pyHash (salt : Nat) (s : String) : Nat :=
  s.toList.foldl (fun h c => (h * 1000003 + c.toNat) % 2305843009213693951)
    (salt % 2305843009213693951)

/-- Python str.startswith applied to the 0x prefix: true when the first
two characters of the string are 0 and x. -/
def startsWith0x (s : String) : Bool :=
  match s.toList with
  | '0' :: 'x' :: _ => true
  | _ => false

/-- Python int(s, 16) on a 0x-prefixed address string: the hex value. -/
def hexDigit (c : Char) : Nat :=
  if 48 ≤ c.toNat ∧ c.toNat ≤ 57 then c.toNat - 48
  else if 97 ≤ c.toNat ∧ c.toNat ≤ 102 then c.toNat - 87
  else if 65 ≤ c.toNat ∧ c.toNat ≤ 70 then c.toNat - 55
  else 0

def parseHex (s : String) : Nat :=
  ((s.drop 2).toList).foldl (fun n c => n * 16 + hexDigit c) 0

/-- risk_api.py: address_int = int(addr, 16) if addr.startswith(0x) else
hash(addr). The hash branch depends on the process salt. -/
def addressInt (salt : Nat) (addr : String) : Nat :=
  if startsWith0x addr then parseHex addr else pyHash salt addr

/-- The 18 feature draws of assess_strategy_risk, in source order, from the
freshly seeded generator state. -/
def drawFeatures (s0 : Nat) : List ℚ × Nat :=
  let (f1, s1) := npUniform (mkRat 1 1000) (mkRat 1 10) s0
  let (f2, s2) := npUniform (mkRat 1 100000) (mkRat 1 100) s1
  let (f3, s3) := npUniform (mkRat 1 100000) (mkRat 1 10) s2
  let (f4, s4) := npUniform 0 20 s3
  let (f5, s5) := npUniform 0 100 s4
  let (f6, s6) := npRandint 10 200 s5
  let (f7, s7) := npRandint 5 150 s6
  let (f8, s8) := npUniform 0 24 s7
  let (f9, s9) := npUniform 0 168 s8
  let (f10, s10) := npUniform 0 1 s9
  let (f11, s11) := npUniform 0 1 s10
  let (f12, s12) := npUniform 0 1 s11
  let (f13, s13) := npUniform 0 1 s12
  let (f14, s14) := npUniform 0 1 s13
  let (f15, s15) := npUniform 0 2 s14
  let (f16, s16) := npUniform 0 20 s15
  let (f17, s17) := npUniform 0 (mkRat 1 2) s16
  let (f18, s18) := npUniform 0 10 s17
  ([f1, f2, f3, f4, f5, f6, f7, f8, f9, f10, f11, f12, f13, f14, f15, f16,
    f17, f18], s18)

/-- The saved model artifact loaded by StrategyRiskAPI: the fitted scaler
transform, the IsolationForest decision function and the baseline scores
list, as stored by create_aurora_model.py. -/
structure ModelData where
  transform : List ℚ → List ℚ
  decision_function : List ℚ → ℚ
  baseline_scores : List ℚ

/-- A numpy float64 scalar value: a finite value, nan, or a signed
infinity. The anomaly score returned by decision_function is a
numpy.float64, so the risk conversion arithmetic follows numpy scalar
semantics, which never raise on a zero denominator. -/
inductive NpFloat where
  | val (q : ℚ)
  | nan
  | inf (pos : Bool)
deriving Repr, DecidableEq

/-- numpy float64 scalar division with a finite numerator and denominator:
a zero denominator emits a RuntimeWarning and yields nan for 0/0 and a
signed infinity otherwise; it never raises. -/
def npDiv (x y : ℚ) : NpFloat :=
  if y = 0 then (if x = 0 then NpFloat.nan else NpFloat.inf (0 < x))
  else NpFloat.val (x / y)

/-- Subtraction of a numpy float value from a finite constant, with IEEE
nan and infinity propagation. -/
def npSubFrom (c : ℚ) : NpFloat → NpFloat
  | NpFloat.val q => NpFloat.val (c - q)
  | NpFloat.nan => NpFloat.nan
  | NpFloat.inf s => NpFloat.inf (!s)

/-- The IEEE less-than test on numpy float values: every comparison with
nan is false. -/
def NpFloat.lt : NpFloat → NpFloat → Bool
  | NpFloat.nan, _ => false
  | _, NpFloat.nan => false
  | NpFloat.val a, NpFloat.val b => decide (a < b)
  | NpFloat.inf s, NpFloat.val _ => !s
  | NpFloat.val _, NpFloat.inf s => s
  | NpFloat.inf s, NpFloat.inf t => !s && t

/-- The Python builtin min on two numpy float values: returns the second
argument only when it compares less than the first, so min(1.0, nan)
keeps 1.0. -/
def npMin (a b : NpFloat) : NpFloat := if NpFloat.lt b a then b else a

/-- The Python builtin max on two numpy float values: returns the second
argument only when the first compares less than it. -/
def npMax (a b : NpFloat) : NpFloat := if NpFloat.lt a b then b else a

/-- Python two-argument min: keeps the first argument on ties. -/
def pyMin (a b : ℚ) : ℚ := if b < a then b else a

/-- Python two-argument max: keeps the first argument on ties. -/
def pyMax (a b : ℚ) : ℚ := if a < b then b else a

/-- Python min() over a nonempty list. -/
def listMin : List ℚ → ℚ
  | [] => 0
  | x :: xs => xs.foldl pyMin x

/-- Python max() over a nonempty list. -/
def listMax : List ℚ → ℚ
  | [] => 0
  | x :: xs => xs.foldl pyMax x

/-- risk_api.py StrategyRiskAPI.assess_strategy_risk: seeds the global
generator from the address integer modulo 2^32, draws the 18 features,
scales them, scores them, and converts the anomaly score to a risk score
against the baseline range, clamping the result to the unit interval. The
process hash salt and the incoming generator state are passed explicitly;
the call overwrites the generator state via np.random.seed before any
draw. Returns the risk score value and the generator state left behind. -/
def assess_strategy_risk (m : ModelData) (salt : Nat) (rng : Nat)
    (strategy_address : String) : NpFloat × Nat :=
  let address_int := addressInt salt strategy_address
  let seeded := address_int % 4294967296
  let features := (drawFeatures seeded).1
  let rngAfter := (drawFeatures seeded).2
  let features_scaled := m.transform features
  let anomaly_score := m.decision_function features_scaled
  let min_score := listMin m.baseline_scores
  let max_score := listMax m.baseline_scores
  let risk_score : NpFloat :=
    if anomaly_score < min_score then NpFloat.val (mkRat 4 5)
    else if anomaly_score > max_score then NpFloat.val (mkRat 1 5)
    else
      npSubFrom (mkRat 7 10)
        (npDiv (mkRat 1 2 * (anomaly_score - min_score))
          (max_score - min_score))
  (npMax (NpFloat.val 0) (npMin (NpFloat.val 1) risk_score), rngAfter)

/-- create_aurora_model.py create_mock_features: the single constant
feature row, in column order. -/
def create_mock_features : List ℚ :=
  [mkRat 1 10, mkRat 1 20, 1, 21000, 5000, 100, 50, 12, 3600, mkRat 1 100,
    mkRat 1 10, mkRat 3 10, mkRat 1 5, mkRat 3 20, 2, 10, mkRat 3 10, 1]

/-- create_aurora_model.py main: builds five identical mock feature rows,
fits the scaler and the IsolationForest on them, and stores the baseline
decision scores of the five scaled rows together with the fitted transform
and decision function. -/
def aurora_model (tr : List ℚ → List ℚ) (df : List ℚ → ℚ) : ModelData :=
  { transform := tr, decision_function := df,
    baseline_scores := (List.replicate 5 create_mock_features).map
      (fun row => df (tr row)) }

/-
  Concrete instances used to witness the theorems below.
-/

/-- A concrete chain state: empty vault, empty prize pool. -/
def demoChain : Chain :=
  { usdcBalanceOf := fun _ => Except.ok 0,
    vrfGetBalance := Except.ok 0,
    lastWinner := Except.ok "0xabc",
    txCount := 7, gasPrice := 100 }

/-- A world whose next three submissions confirm. -/
def W0 : World :=
  { chain := demoChain,
    pending := [SendOutcome.confirmed 11, SendOutcome.confirmed 12,
      SendOutcome.confirmed 13] }

/-- A world whose next submission times out waiting for its receipt. -/
def WT : World :=
  { chain := demoChain, pending := [SendOutcome.timedOut] }

/-- A world whose next submission reverts. -/
def WR : World :=
  { chain := demoChain, pending := [SendOutcome.reverted "boom"] }

/-- A world where the first submission confirms and the second reverts. -/
def WCR : World :=
  { chain := demoChain,
    pending := [SendOutcome.confirmed 11, SendOutcome.reverted "boom"] }

/-- A world whose RPC endpoint is unreachable: every view call fails. -/
def WBad : World :=
  { chain := { usdcBalanceOf := fun _ => Except.error "RPC unreachable",
               vrfGetBalance := Except.error "RPC unreachable",
               lastWinner := Except.error "RPC unreachable",
               txCount := 0, gasPrice := 0 },
    pending := [] }

/-- A sample transaction request. -/
def TX0 : TxRequest :=
  (build_transaction demoChain USDC_TOKEN_ADDRESS "mint"
    [Arg.addr AGENT_ADDRESS, Arg.uint 150500000] 500000).1

/-- A chain state agreeing with demoChain on the nonce and gas price reads
but differing in every balance read. -/
def demoChain2 : Chain :=
  { usdcBalanceOf := fun _ => Except.ok 5000000,
    vrfGetBalance := Except.ok 9000000,
    lastWinner := Except.ok "0xdef",
    txCount := 7, gasPrice := 100 }

/-- A concrete saved-model instance with the degenerate all-equal baseline
scores the repository artifact has, and a decision function that depends
on the first drawn feature. -/
def m0CE : ModelData :=
  { transform := id,
    decision_function := fun v => v.headI - mkRat 1 20,
    baseline_scores := List.replicate 5 0 }

/-
  Theorems.
-/

/-- C5: whenever the vault USDC balance reads as 0,
deposit_new_funds_into_strategy returns the no-op message, leaves the
world unchanged, and produces no events at all: in particular
send_transaction is never reached and nothing is submitted. -/
theorem deposit_noop_on_zero_balance (w : World)
    (h : w.chain.usdcBalanceOf VAULT_ADDRESS = Except.ok 0) :
    Flow.deposit_new_funds_into_strategy w =
      ("No new funds in the vault to deposit. All capital is already deployed.",
        w, []) := by
  unfold Flow.deposit_new_funds_into_strategy
  rw [h]
  simp

/-- C5 witness: the concrete zero-balance world. -/
theorem deposit_noop_on_zero_balance_witness :
    Flow.deposit_new_funds_into_strategy W0 =
      ("No new funds in the vault to deposit. All capital is already deployed.",
        W0, []) :=
  deposit_noop_on_zero_balance W0 rfl

/-- C6: whenever the VRF strategy prize pool reads as 0,
trigger_lottery_draw returns the rejection message, leaves the world
unchanged, and produces no events: send_transaction is never reached. -/
theorem trigger_draw_rejects_on_zero_pool (w : World)
    (h : w.chain.vrfGetBalance = Except.ok 0) :
    Flow.trigger_lottery_draw w =
      ("Cannot trigger draw: The prize pool is zero. Harvest some yield first.",
        w, []) := by
  unfold Flow.trigger_lottery_draw
  rw [h]
  simp

/-- C6 witness: the concrete zero-pool world. -/
theorem trigger_draw_rejects_on_zero_pool_witness :
    Flow.trigger_lottery_draw W0 =
      ("Cannot trigger draw: The prize pool is zero. Harvest some yield first.",
        W0, []) :=
  trigger_draw_rejects_on_zero_pool W0 rfl

/-- C7: the transaction builder is deterministic and read-only: for any
two chain states agreeing on the nonce and gas price reads, the same
(contract, method, args, gas) inputs build the same transaction request
with byte-identical serialized payloads, and building returns the chain
state unchanged. -/
theorem build_transaction_deterministic (c1 c2 : Chain)
    (dest method : String) (args : List Arg) (gas : Nat)
    (hn : c1.txCount = c2.txCount) (hg : c1.gasPrice = c2.gasPrice) :
    (build_transaction c1 dest method args gas).1 =
      (build_transaction c2 dest method args gas).1 ∧
    encodeTx (build_transaction c1 dest method args gas).1 =
      encodeTx (build_transaction c2 dest method args gas).1 ∧
    (build_transaction c1 dest method args gas).2 = c1 := by
  refine ⟨?_, ?_, rfl⟩ <;> simp [build_transaction, hn, hg]

/-- C7 witness: two chains differing in every balance read but agreeing on
nonce and gas price build byte-identical payloads, and building leaves the
chain unchanged. -/
theorem build_transaction_deterministic_witness :
    encodeTx (build_transaction demoChain USDC_TOKEN_ADDRESS "mint"
        [Arg.uint 150500000] 500000).1 =
      encodeTx (build_transaction demoChain2 USDC_TOKEN_ADDRESS "mint"
        [Arg.uint 150500000] 500000).1 ∧
    (build_transaction demoChain USDC_TOKEN_ADDRESS "mint"
        [Arg.uint 150500000] 500000).2 = demoChain :=
  ⟨(build_transaction_deterministic demoChain demoChain2
      USDC_TOKEN_ADDRESS "mint" [Arg.uint 150500000] 500000 rfl rfl).2.1,
    (build_transaction_deterministic demoChain demoChain2
      USDC_TOKEN_ADDRESS "mint" [Arg.uint 150500000] 500000 rfl rfl).2.2⟩

/-- C8: the receipt wait of send_transaction always uses a 120 second
timeout; when the wait times out the function returns success false with
the timeout error message, consuming exactly that one scripted outcome;
and every call makes exactly one submission, so there is no retry. -/
theorem send_transaction_timeout_behavior :
    (∀ (w : World) (tx : TxRequest) (t : Nat),
        Event.waitReceipt t ∈ (Flow.send_transaction w tx).2.2 → t = 120) ∧
    (∀ (w : World) (tx : TxRequest) (rest : List SendOutcome),
        w.pending = SendOutcome.timedOut :: rest →
        Flow.send_transaction w tx =
          ({ success := false,
             error := some "Transaction is not in the chain after 120 seconds",
             receiptBlock := none }, { w with pending := rest },
            [Event.submit tx, Event.waitReceipt 120])) ∧
    (∀ (w : World) (tx : TxRequest),
        submits (Flow.send_transaction w tx).2.2 = [tx]) := by
  refine ⟨?_, ?_, ?_⟩
  · intro w tx t ht
    rcases w with ⟨c, pending⟩
    rcases pending with _ | ⟨o, rest⟩
    · simp [Flow.send_transaction, submits] at ht
    · cases o <;> simp [Flow.send_transaction] at ht <;> omega
  · intro w tx rest h
    rcases w with ⟨c, pending⟩
    simp only at h
    subst h
    rfl
  · intro w tx
    rcases w with ⟨c, pending⟩
    rcases pending with _ | ⟨o, rest⟩
    · rfl
    · cases o <;> rfl

/-- C8 witness: the timed-out world at a sample transaction. -/
theorem send_transaction_timeout_behavior_witness :
    Flow.send_transaction WT TX0 =
      ({ success := false,
         error := some "Transaction is not in the chain after 120 seconds",
         receiptBlock := none }, { WT with pending := [] },
        [Event.submit TX0, Event.waitReceipt 120]) :=
  send_transaction_timeout_behavior.2.1 WT TX0 [] rfl

/-- C3 counterexample: the claim that no failure escapes a tool function
fails on the NEAR variant: with an unreachable RPC endpoint, the NEAR
get_protocol_status raises out of the tool (an error result of the
embedding) instead of returning a descriptive string. -/
theorem near_status_exception_escapes_tool :
    Near.get_protocol_status WBad = Except.error "RPC unreachable" := rfl

/-- C3 amended: the flow-vault-agent tools catch every internal failure at
the tool boundary and return it as a descriptive string, but the
near-vault-agent tools have no such wrapper: a failing view call
propagates out of the tool function and is only caught at the HTTP
boundary. -/
theorem tool_boundary_error_policy :
    (∀ (w : World) (e : String),
        w.chain.usdcBalanceOf VAULT_ADDRESS = Except.error e →
        Flow.get_protocol_status w =
          ("Error getting protocol status: " ++ e, w, [])) ∧
    (∀ (w : World) (e : String),
        w.chain.usdcBalanceOf VAULT_ADDRESS = Except.error e →
        Flow.deposit_new_funds_into_strategy w =
          ("Error depositing funds: " ++ e, w, [])) ∧
    (∀ (w : World) (e : String),
        w.chain.vrfGetBalance = Except.error e →
        Flow.trigger_lottery_draw w =
          ("Error triggering lottery draw: " ++ e, w, [])) ∧
    (∀ (w : World) (e : String),
        w.chain.usdcBalanceOf VAULT_ADDRESS = Except.error e →
        Near.get_protocol_status w = Except.error e) := by
  refine ⟨?_, ?_, ?_, ?_⟩ <;> intro w e h
  · unfold Flow.get_protocol_status
    rw [h]
  · unfold Flow.deposit_new_funds_into_strategy
    rw [h]
  · unfold Flow.trigger_lottery_draw
    rw [h]
  · unfold Near.get_protocol_status
    rw [h]

/-- C3 amended witness: the unreachable-RPC world. -/
theorem tool_boundary_error_policy_witness :
    Flow.get_protocol_status WBad =
      ("Error getting protocol status: RPC unreachable", WBad, []) :=
  tool_boundary_error_policy.1 WBad "RPC unreachable" rfl

/-- C1: a successful run of simulate_yield_harvest_and_deposit (one whose
first three scripted submissions all confirm) submits exactly three
transactions, in the order mint, approve, depositYield, and each of the
three carries the same integer amount int(amount * 10^6). -/
theorem simulate_yield_submits_three_txs (a : ℚ) (w : World)
    (b1 b2 b3 : Nat) (rest : List SendOutcome)
    (h : w.pending = SendOutcome.confirmed b1 :: SendOutcome.confirmed b2 ::
      SendOutcome.confirmed b3 :: rest) :
    (submits (Flow.simulate_yield_harvest_and_deposit a w).2.2).map
        TxRequest.method = ["mint", "approve", "depositYield"] ∧
    (submits (Flow.simulate_yield_harvest_and_deposit a w).2.2).map txAmount =
      List.replicate 3 (some (pyInt (a * 10 ^ 6))) ∧
    (Flow.simulate_yield_harvest_and_deposit a w).1 =
      "Successfully simulated and deposited " ++ toString a
        ++ " USDC as the prize pool." := by
  rcases w with ⟨c, pending⟩
  simp only at h
  subst h
  refine ⟨?_, ?_, ?_⟩ <;>
    simp [Flow.simulate_yield_harvest_and_deposit, Flow.send_transaction,
      build_transaction, submits, txAmount, List.replicate]

/-- C1 witness: amount 150.50 at the three-confirmation world; each of the
three submissions carries the integer amount 150500000. -/
theorem simulate_yield_submits_three_txs_witness :
    (submits (Flow.simulate_yield_harvest_and_deposit 150.5 W0).2.2).map
        TxRequest.method = ["mint", "approve", "depositYield"] ∧
    (submits (Flow.simulate_yield_harvest_and_deposit 150.5 W0).2.2).map
        txAmount = List.replicate 3 (some 150500000) := by
  have h := simulate_yield_submits_three_txs 150.5 W0 11 12 13 [] rfl
  refine ⟨h.1, ?_⟩
  rw [h.2.1]
  norm_num [pyInt]

/-- C2 counterexample: the claim that the implementation does not wait on
the actual transaction receipt before starting the next step is false: in
the concrete successful run the event trace contains a receipt wait that
is followed by a later submission. -/
theorem simulate_trace_waits_on_receipt_before_next_step :
    receiptWaitBeforeLaterSubmit
      (Flow.simulate_yield_harvest_and_deposit 150.5 W0).2.2 = true := by
  rfl

/-- C2 amended: in the three-step yield-harvest sequence each submission is
followed by a blocking wait on its transaction receipt (timeout 120
seconds) inside send_transaction before the next step starts; the fixed
2 second sleep after each of the first two confirmed steps is in addition
to that receipt wait, not a substitute for it. -/
theorem simulate_receipt_wait_between_steps (a : ℚ) (w : World)
    (b1 b2 b3 : Nat) (rest : List SendOutcome)
    (h : w.pending = SendOutcome.confirmed b1 :: SendOutcome.confirmed b2 ::
      SendOutcome.confirmed b3 :: rest) :
    ∃ t1 t2 t3 : TxRequest,
      (Flow.simulate_yield_harvest_and_deposit a w).2.2 =
        [Event.submit t1, Event.waitReceipt 120, Event.sleep 2,
         Event.submit t2, Event.waitReceipt 120, Event.sleep 2,
         Event.submit t3, Event.waitReceipt 120] := by
  rcases w with ⟨c, pending⟩
  simp only at h
  subst h
  refine ⟨(build_transaction c USDC_TOKEN_ADDRESS "mint"
      [Arg.addr AGENT_ADDRESS, Arg.uint (pyInt (a * 10 ^ 6))] 500000).1,
    (build_transaction { c with txCount := c.txCount + 1 } USDC_TOKEN_ADDRESS
      "approve" [Arg.addr VRF_STRATEGY_ADDRESS, Arg.uint (pyInt (a * 10 ^ 6))]
      500000).1,
    (build_transaction { c with txCount := c.txCount + 2 } VRF_STRATEGY_ADDRESS
      "depositYield" [Arg.uint (pyInt (a * 10 ^ 6))] 1000000).1, ?_⟩
  simp [Flow.simulate_yield_harvest_and_deposit, Flow.send_transaction,
    build_transaction]

/-- C2 amended witness: the concrete successful run shows the full trace
with a receipt wait after every submission. -/
theorem simulate_receipt_wait_between_steps_witness :
    ∃ t1 t2 t3 : TxRequest,
      (Flow.simulate_yield_harvest_and_deposit 150.5 W0).2.2 =
        [Event.submit t1, Event.waitReceipt 120, Event.sleep 2,
         Event.submit t2, Event.waitReceipt 120, Event.sleep 2,
         Event.submit t3, Event.waitReceipt 120] :=
  simulate_receipt_wait_between_steps 150.5 W0 11 12 13 [] rfl

/-- Any run of the yield-harvest sequence submits a prefix of the
mint, approve, depositYield sequence: one of the three method lists. -/
lemma simulate_trace_cases (a : ℚ) (w : World) :
    (submits (Flow.simulate_yield_harvest_and_deposit a w).2.2).map
        TxRequest.method = ["mint"] ∨
    (submits (Flow.simulate_yield_harvest_and_deposit a w).2.2).map
        TxRequest.method = ["mint", "approve"] ∨
    (submits (Flow.simulate_yield_harvest_and_deposit a w).2.2).map
        TxRequest.method = ["mint", "approve", "depositYield"] := by
  rcases w with ⟨c, pending⟩
  rcases pending with _ | ⟨b1 | _ | m1 | m1, _ | ⟨b2 | _ | m2 | m2,
    _ | ⟨b3 | _ | m3 | m3, p3⟩⟩⟩ <;>
    simp [Flow.simulate_yield_harvest_and_deposit, Flow.send_transaction,
      build_transaction, submits]

/-- C4: if a step of the mint, approve, depositYield sequence fails, the
sequence stops at once: a first-step revert leaves exactly the mint
submission, a second-step revert leaves exactly the mint and approve
submissions, and in every possible run each submitted transaction is one
of the three intended steps, so no compensating transaction is ever
submitted. -/
theorem simulate_aborts_on_step_failure :
    (∀ (a : ℚ) (w : World) (m : String) (rest : List SendOutcome),
        w.pending = SendOutcome.reverted m :: rest →
        (submits (Flow.simulate_yield_harvest_and_deposit a w).2.2).map
            TxRequest.method = ["mint"] ∧
        (Flow.simulate_yield_harvest_and_deposit a w).1 =
          "Failed to mint mock yield: " ++ ("Contract logic error: " ++ m)) ∧
    (∀ (a : ℚ) (w : World) (b : Nat) (m : String) (rest : List SendOutcome),
        w.pending = SendOutcome.confirmed b :: SendOutcome.reverted m :: rest →
        (submits (Flow.simulate_yield_harvest_and_deposit a w).2.2).map
            TxRequest.method = ["mint", "approve"] ∧
        (Flow.simulate_yield_harvest_and_deposit a w).1 =
          "Failed to approve yield deposit: " ++ ("Contract logic error: " ++ m)) ∧
    (∀ (a : ℚ) (w : World) (t : TxRequest),
        t ∈ submits (Flow.simulate_yield_harvest_and_deposit a w).2.2 →
        t.method = "mint" ∨ t.method = "approve" ∨ t.method = "depositYield") := by
  refine ⟨?_, ?_, ?_⟩
  · intro a w m rest h
    rcases w with ⟨c, pending⟩
    simp only at h
    subst h
    constructor <;>
      simp [Flow.simulate_yield_harvest_and_deposit, Flow.send_transaction,
        build_transaction, submits, TxResult.errorStr]
  · intro a w b m rest h
    rcases w with ⟨c, pending⟩
    simp only at h
    subst h
    constructor <;>
      simp [Flow.simulate_yield_harvest_and_deposit, Flow.send_transaction,
        build_transaction, submits, TxResult.errorStr]
  · intro a w t ht
    have hmem : t.method ∈
        (submits (Flow.simulate_yield_harvest_and_deposit a w).2.2).map
          TxRequest.method := List.mem_map_of_mem TxRequest.method ht
    rcases simulate_trace_cases a w with hc | hc | hc <;> rw [hc] at hmem <;>
      simp at hmem <;> tauto

/-- C4 witness: a first-step revert submits only the mint transaction, and
a second-step revert submits only mint and approve. -/
theorem simulate_aborts_on_step_failure_witness :
    (submits (Flow.simulate_yield_harvest_and_deposit 150.5 WR).2.2).map
        TxRequest.method = ["mint"] ∧
    (submits (Flow.simulate_yield_harvest_and_deposit 150.5 WCR).2.2).map
        TxRequest.method = ["mint", "approve"] :=
  ⟨(simulate_aborts_on_step_failure.1 150.5 WR "boom" [] rfl).1,
    (simulate_aborts_on_step_failure.2.1 150.5 WCR 11 "boom" [] rfl).1⟩

/-- C9 counterexample: assess_strategy_risk is not a function of the
strategy address alone across processes: for an address that does not
start with 0x the seed comes from the salted Python string hash, and two
processes with different hash salts obtain different risk scores from the
same saved model. -/
theorem assess_risk_not_process_independent :
    (assess_strategy_risk m0CE 1 0 "near-strategy").1 ≠
      (assess_strategy_risk m0CE 2 0 "near-strategy").1 := by
  have hseed1 : addressInt 1 "near-strategy" % 4294967296 = 1776213814 := by
    decide
  have hseed2 : addressInt 2 "near-strategy" % 4294967296 = 762850206 := by
    decide
  have hmin : listMin (List.replicate 5 0) = 0 := by decide
  have hmax : listMax (List.replicate 5 0) = 0 := by decide
  have hhead1 : (drawFeatures 1776213814).1.headI =
      mkRat 1 1000 + (mkRat 1 10 - mkRat 1 1000) *
        mkRat (randStep 1776213814) 4294967296 := by
    simp [drawFeatures, npUniform, npRandint]
  have hhead2 : (drawFeatures 762850206).1.headI =
      mkRat 1 1000 + (mkRat 1 10 - mkRat 1 1000) *
        mkRat (randStep 762850206) 4294967296 := by
    simp [drawFeatures, npUniform, npRandint]
  have hlt : (drawFeatures 1776213814).1.headI - mkRat 1 20 < 0 := by
    rw [hhead1]
    norm_num [randStep, Rat.mkRat_eq_div]
  have hgt : 0 < (drawFeatures 762850206).1.headI - mkRat 1 20 := by
    rw [hhead2]
    norm_num [randStep, Rat.mkRat_eq_div]
  have h1 : (assess_strategy_risk m0CE 1 0 "near-strategy").1 =
      NpFloat.val (mkRat 4 5) := by
    simp only [assess_strategy_risk, m0CE, hseed1, id_eq]
    rw [hmin, hmax, if_pos hlt]
    norm_num [npMin, npMax, NpFloat.lt, Rat.mkRat_eq_div]
  have h2 : (assess_strategy_risk m0CE 2 0 "near-strategy").1 =
      NpFloat.val (mkRat 1 5) := by
    simp only [assess_strategy_risk, m0CE, hseed2, id_eq]
    rw [hmin, hmax, if_neg (not_lt.mpr (le_of_lt hgt)), if_pos hgt]
    norm_num [npMin, npMax, NpFloat.lt, Rat.mkRat_eq_div]
  rw [h1, h2]
  intro hc
  have hv : mkRat 4 5 = mkRat 1 5 := NpFloat.val.inj hc
  norm_num [Rat.mkRat_eq_div] at hv

/-- C9 amended: for every strategy address that starts with 0x the seed is
int(address, 16) modulo 2^32, which does not depend on the process hash
salt or on the incoming generator state, so any two calls with the same
saved model return exactly the same risk score and leave the same
generator state. For other addresses the seed comes from the per-process
salted string hash, so cross-process determinism is not guaranteed. -/
theorem assess_risk_deterministic_for_hex_addresses (m : ModelData)
    (salt1 salt2 rng1 rng2 : Nat) (addr : String)
    (h : startsWith0x addr = true) :
    assess_strategy_risk m salt1 rng1 addr =
      assess_strategy_risk m salt2 rng2 addr := by
  simp [assess_strategy_risk, addressInt, h]

/-- C9 amended witness: the sample strategy address from the source test,
assessed under two different process salts and generator states. -/
theorem assess_risk_deterministic_for_hex_addresses_witness :
    assess_strategy_risk m0CE 1 0 "0x28F6D4Fe5648BbF2506E56a5b7f9D5522C3999f1" =
      assess_strategy_risk m0CE 2 5 "0x28F6D4Fe5648BbF2506E56a5b7f9D5522C3999f1" :=
  assess_risk_deterministic_for_hex_addresses m0CE 1 2 0 5
    "0x28F6D4Fe5648BbF2506E56a5b7f9D5522C3999f1" (by decide)

/-- C10 counterexample: at an input whose anomaly score equals the common
baseline value of the degenerate model, assess_strategy_risk does not
raise ZeroDivisionError: the zero-denominator division follows numpy
float64 semantics, yields nan, and the final clamp turns the nan into a
silently returned risk score of 1.0. -/
theorem assess_degenerate_baseline_returns_one :
    (assess_strategy_risk (aurora_model id (fun _ => 0)) 0 0 "0x1").1 =
      NpFloat.val 1 := by
  have hmin : listMin (List.replicate 5 (0 : ℚ)) = 0 := by decide
  have hmax : listMax (List.replicate 5 (0 : ℚ)) = 0 := by decide
  simp only [assess_strategy_risk, aurora_model, id_eq, List.map_replicate]
  rw [hmin, hmax]
  norm_num [npDiv, npSubFrom, npMin, npMax, NpFloat.lt]

/-- C10 amended: the model built by create_aurora_model.main is trained on
five identical feature rows, so its stored baseline scores are all equal
(the minimum equals the maximum); the division by (max_score - min_score)
in the middle branch of assess_strategy_risk is unguarded, and for any
input whose anomaly score equals the common baseline value it divides
zero by zero over numpy float64, which yields nan (with a RuntimeWarning)
instead of raising; the nan propagates through the risk formula and the
clamp max(0.0, min(1.0, nan)) makes the call silently return risk 1.0. -/
theorem aurora_model_degenerate_nan_risk_one
    (tr : List ℚ → List ℚ) (df : List ℚ → ℚ) (salt rng : Nat) (addr : String)
    (h : df (tr (drawFeatures (addressInt salt addr % 4294967296)).1) =
      listMin (aurora_model tr df).baseline_scores) :
    listMin (aurora_model tr df).baseline_scores =
      listMax (aurora_model tr df).baseline_scores ∧
    (assess_strategy_risk (aurora_model tr df) salt rng addr).1 =
      NpFloat.val 1 := by
  have hb : (aurora_model tr df).baseline_scores =
      List.replicate 5 (df (tr create_mock_features)) := by
    simp [aurora_model, List.map_replicate]
  have hmm : listMin (aurora_model tr df).baseline_scores =
      df (tr create_mock_features) := by
    rw [hb]
    simp [listMin, List.replicate, pyMin]
  have hmx : listMax (aurora_model tr df).baseline_scores =
      df (tr create_mock_features) := by
    rw [hb]
    simp [listMax, List.replicate, pyMax]
  have htr : (aurora_model tr df).transform = tr := rfl
  have hdf2 : (aurora_model tr df).decision_function = df := rfl
  have ha : df (tr (drawFeatures (addressInt salt addr % 4294967296)).1) =
      df (tr create_mock_features) := h.trans hmm
  refine ⟨hmm.trans hmx.symm, ?_⟩
  simp only [assess_strategy_risk, htr, hdf2]
  rw [ha, hmm, hmx]
  norm_num [npDiv, npSubFrom, npMin, npMax, NpFloat.lt]

/-- C10 amended witness: a degenerate model with common baseline value 3/7;
the assessment at a matching input returns the clamped nan as risk 1.0. -/
theorem aurora_model_degenerate_nan_risk_one_witness :
    listMin (aurora_model id (fun _ => mkRat 3 7)).baseline_scores =
      listMax (aurora_model id (fun _ => mkRat 3 7)).baseline_scores ∧
    (assess_strategy_risk (aurora_model id (fun _ => mkRat 3 7)) 0 0 "0x2").1 =
      NpFloat.val 1 :=
  aurora_model_degenerate_nan_risk_one id (fun _ => mkRat 3 7) 0 0 "0x2"
    (by decide)
